import Mathlib

set_option maxHeartbeats 1000000

/-! Shallow embedding of the dashboard progress engine of
`dashboard_server.py`: the checkpoint readers (JSON and SQLite backends),
the sliding-window metrics, the ETA estimator, the snapshot percentage
blend and the active-path resolver.  Filesystem and database reads are
modelled by passing their per-poll outcomes as explicit inputs
(`Except`-valued where the source operation can raise). -/

/-- Python `str.lower()` (ASCII case mapping), written as a character map
over the string's data so that it reduces in the kernel. -/
def pyLower (s : String) : String :=
  ⟨s.data.map Char.toLower⟩

/-- Python `str.upper()` (ASCII case mapping). -/
def pyUpper (s : String) : String :=
  ⟨s.data.map Char.toUpper⟩

/-- Python `str.strip()`: drop leading and trailing whitespace. -/
def pyStrip (s : String) : String :=
  ⟨((s.data.dropWhile Char.isWhitespace).reverse.dropWhile
      Char.isWhitespace).reverse⟩

/-- Uniform progress summary: the `total/done/running/pending/failed`
counters produced by `calculate_progress_from_tasks` and
`_calculate_progress_from_sqlite`.  The derived `percent` and the
`tasks_detail` listing are not needed by the properties below and are
omitted. -/
structure Progress where
  total : Nat
  done : Nat
  running : Nat
  pending : Nat
  failed : Nat
deriving DecidableEq, Repr

/-- One record of the JSON task map `tasks_state.json`, restricted to the
fields the engine reads; `status = none` models an absent "status" key. -/
structure JsonTask where
  status : Option String
  route : Option String
  assigned_worker : Option String
  dates : List String
deriving DecidableEq

/-- One iteration of the task loop in the JSON branch of
`calculate_progress_from_tasks`: bump the bucket selected by the task's
status, defaulting an absent status to "PENDING". -/
def jsonStep (acc : Progress) (kv : String × JsonTask) : Progress :=
  let status := kv.2.status.getD "PENDING"
  if status = "DONE" then { acc with done := acc.done + 1 }
  else if status = "RUNNING" then { acc with running := acc.running + 1 }
  else if status = "FAILED" then { acc with failed := acc.failed + 1 }
  else { acc with pending := acc.pending + 1 }

/-- Whether a JSON task falls into the `pending` bucket: its status
(defaulted to "PENDING" when absent) is none of DONE, RUNNING, FAILED. -/
def jsonPendingP (kv : String × JsonTask) : Bool :=
  !(kv.2.status.getD "PENDING" == "DONE" ||
    kv.2.status.getD "PENDING" == "RUNNING" ||
    kv.2.status.getD "PENDING" == "FAILED")

/-- JSON-backend branch of `calculate_progress_from_tasks`: count task
states from the task map; a status other than DONE/RUNNING/FAILED falls
into the `pending` bucket. -/
def jsonProgress (tasks : List (String × JsonTask)) : Progress :=
  if tasks = [] then ⟨0, 0, 0, 0, 0⟩
  else tasks.foldl jsonStep ⟨tasks.length, 0, 0, 0, 0⟩

/-- The `stats` dictionary of `_sqlite_get_task_stats`. -/
structure SqliteStats where
  total : Nat
  pending : Nat
  running : Nat
  done : Nat
  failed : Nat
  failed_exhausted : Nat
deriving DecidableEq, Repr

/-- `SELECT state, COUNT(*) FROM chunk_tasks GROUP BY state`, modelled on a
table given as the list of each row's raw `state` value: one
`(state, count)` pair per distinct state. -/
def groupStates (rows : List String) : List (String × Nat) :=
  rows.dedup.map fun s => (s, rows.count s)

/-- The dictionary write `stats[state] = count` of `_sqlite_get_task_stats`
(guarded by `state in stats`, hence a no-op for a state that is not one of
the six stat keys). -/
def setStat (st : SqliteStats) (s : String) (c : Nat) : SqliteStats :=
  if s = "total" then { st with total := c }
  else if s = "pending" then { st with pending := c }
  else if s = "running" then { st with running := c }
  else if s = "done" then { st with done := c }
  else if s = "failed" then { st with failed := c }
  else if s = "failed_exhausted" then { st with failed_exhausted := c }
  else st

/-- One iteration of the grouped-row loop in `_sqlite_get_task_stats`:
lowercase the state, store the count under that key when recognised, and
always add the count to `total`. -/
def statsStep (st : SqliteStats) (row : String × Nat) : SqliteStats :=
  let s := pyLower row.1
  let st1 := setStat st s row.2
  { st1 with total := st1.total + row.2 }

/-- `_sqlite_get_task_stats`, including the final fold of
`failed_exhausted` into `failed`. -/
def sqlite_get_task_stats (rows : List String) : SqliteStats :=
  let folded := (groupStates rows).foldl statsStep ⟨0, 0, 0, 0, 0, 0⟩
  { folded with failed := folded.failed + folded.failed_exhausted }

/-- The five task states the checkpoint store writes (the stat keys of
`_sqlite_get_task_stats` other than the derived `total`). -/
def recognizedStates : List String :=
  ["pending", "running", "done", "failed", "failed_exhausted"]

/-- Read the stat bucket named by a recognised state (0 for any other
name); mirrors `stats[state]` for the five task-state keys. -/
def statField (st : SqliteStats) (s : String) : Nat :=
  if s = "pending" then st.pending
  else if s = "running" then st.running
  else if s = "done" then st.done
  else if s = "failed" then st.failed
  else if s = "failed_exhausted" then st.failed_exhausted
  else 0

/-- Sum of the five per-state buckets of the stats dictionary. -/
def sum5 (st : SqliteStats) : Nat :=
  st.pending + st.running + st.done + st.failed + st.failed_exhausted

/-- `_map_sqlite_state_to_task_status`; the argument is the raw `state`
column, with SQL NULL modelled as `none` (replaced by "" as in
`(state or "")`). -/
def map_sqlite_state_to_task_status (state : Option String) : String :=
  let s := pyLower (state.getD "")
  if s = "running" then "RUNNING"
  else if s = "done" then "DONE"
  else if s = "failed" ∨ s = "failed_exhausted" then "FAILED"
  else "PENDING"

/-- Counter part of `_calculate_progress_from_sqlite` (the running-task
detail listing is elided; its status mapping is
`map_sqlite_state_to_task_status`). -/
def calculate_progress_from_sqlite (rows : List String) : Progress :=
  let stats := sqlite_get_task_stats rows
  ⟨stats.total, stats.done, stats.running, stats.pending, stats.failed⟩

/-- One row of the `worker_heartbeats LEFT JOIN chunk_tasks` query in
`get_worker_status_from_tasks`; every column may be SQL NULL. -/
structure HeartbeatRow where
  worker_id : Option String
  status : Option String
  task_id : Option String
  route : Option String
deriving DecidableEq

/-- One row of the `SELECT route, state, dates FROM chunk_tasks` query in
`get_pending_routes_info`.  `dates` is the outcome of `json.loads` on the
stored text: `none` models a parse failure (degraded to `[]`). -/
structure RouteRow where
  route : Option String
  state : Option String
  dates : Option (List String)
deriving DecidableEq

/-- The per-worker record of the worker-status dictionary. -/
structure WorkerInfo where
  status : String
  active_route : Option String
  active_task : Option String
deriving DecidableEq

def WorkerInfo.idle : WorkerInfo := ⟨"idle", none, none⟩

/-- `re.search(r"Worker_(\d+)", s)`: the first occurrence of "Worker_"
followed by at least one digit yields the maximal digit run after it. -/
def findWorkerPort : List Char → Option String
  | [] => none
  | c :: rest =>
    if (c :: rest).take 7 = "Worker_".data ∧
        ((c :: rest).drop 7).takeWhile Char.isDigit ≠ [] then
      some ⟨((c :: rest).drop 7).takeWhile Char.isDigit⟩
    else findWorkerPort rest

/-- Dictionary write `workers[port] = v` on an association list whose key
set is fixed by the configured ports. -/
def listSet (ws : List (String × WorkerInfo)) (k : String) (v : WorkerInfo) :
    List (String × WorkerInfo) :=
  ws.map fun kv => if kv.1 = k then (k, v) else kv

/-- Membership test `port in workers`. -/
def containsKey (ws : List (String × WorkerInfo)) (k : String) : Bool :=
  ws.any fun kv => kv.1 == k

/-- The inputs one poll reads from disk and from the database, passed
explicitly: the existence probe on `chunk_state.db`, the outcome of each
SQL read (`Except.error` models a raised `sqlite3` timeout/lock error),
the already-degraded JSON task map (`load_tasks_state` swallows its own
errors and returns `{}`) and the configured ports. -/
structure PollInput where
  sqliteAvailable : Bool
  sqlTaskRows : Except String (List String)
  sqlHeartbeats : Except String (List HeartbeatRow)
  sqlRouteRows : Except String (List RouteRow)
  jsonTasks : List (String × JsonTask)
  ports : List Nat

/-- `calculate_progress_from_tasks`: probe for the SQLite checkpoint; on a
successful SQL read use it, on a raised SQL error fall through to the JSON
task map for this poll; without the database, read the JSON map.  The
total return type records that this function never propagates an error. -/
def calculate_progress_from_tasks (env : PollInput) : Progress :=
  if env.sqliteAvailable then
    match env.sqlTaskRows with
    | .ok rows => calculate_progress_from_sqlite rows
    | .error _ => jsonProgress env.jsonTasks
  else jsonProgress env.jsonTasks

/-- `get_worker_status_from_tasks`: the SQL branch has no exception
handler, so a raised SQL error is returned as `Except.error` (it
propagates to the caller); the JSON branch scans RUNNING tasks. -/
def get_worker_status_from_tasks (env : PollInput) :
    Except String (List (String × WorkerInfo)) :=
  let base := env.ports.map fun p => (toString p, WorkerInfo.idle)
  if env.sqliteAvailable then
    match env.sqlHeartbeats with
    | .error e => .error e
    | .ok rows =>
      .ok <| rows.foldl
        (fun ws row =>
          match findWorkerPort (row.worker_id.getD "").data with
          | none => ws
          | some port =>
            if containsKey ws port then
              if pyUpper (row.status.getD "") = "RUNNING" ∧
                  (row.task_id.getD "") ≠ "" then
                listSet ws port ⟨"working", row.route, row.task_id⟩
              else listSet ws port WorkerInfo.idle
            else ws)
        base
  else
    .ok <| env.jsonTasks.foldl
      (fun ws kv =>
        if kv.2.status = some "RUNNING" then
          match findWorkerPort (kv.2.assigned_worker.getD "").data with
          | none => ws
          | some port =>
            if containsKey ws port then
              listSet ws port ⟨"working", kv.2.route, some kv.1⟩
            else ws
        else ws)
      base

/-- Per-route aggregation record of `get_pending_routes_info`. -/
structure RouteInfo where
  total_tasks : Nat
  done_tasks : Nat
  pending_dates : List String
  done_dates : List String
deriving DecidableEq

def emptyRouteInfo : RouteInfo := ⟨0, 0, [], []⟩

def getRoute (m : List (Option String × RouteInfo)) (k : Option String) :
    RouteInfo :=
  ((m.find? fun p => p.1 == k).map Prod.snd).getD emptyRouteInfo

def setRoute (m : List (Option String × RouteInfo)) (k : Option String)
    (v : RouteInfo) : List (Option String × RouteInfo) :=
  m.map fun p => if p.1 = k then (k, v) else p

def hasRoute (m : List (Option String × RouteInfo)) (k : Option String) :
    Bool :=
  m.any fun p => p.1 == k

/-- One row of the SQL branch of `get_pending_routes_info`: initialise the
route bucket on first sight, count the task, and either count it done
(state "done") or extend the pending dates. -/
def sqlRouteStep (m : List (Option String × RouteInfo)) (row : RouteRow) :
    List (Option String × RouteInfo) :=
  let m1 := if hasRoute m row.route then m else m ++ [(row.route, emptyRouteInfo)]
  let cur := getRoute m1 row.route
  let cur1 := { cur with total_tasks := cur.total_tasks + 1 }
  let cur2 :=
    if pyLower (row.state.getD "") = "done" then
      { cur1 with done_tasks := cur1.done_tasks + 1 }
    else
      { cur1 with pending_dates := cur1.pending_dates ++ row.dates.getD [] }
  setRoute m1 row.route cur2

/-- One task of the JSON branch of `get_pending_routes_info`. -/
def jsonRouteStep (m : List (Option String × RouteInfo))
    (kv : String × JsonTask) : List (Option String × RouteInfo) :=
  let route := kv.2.route
  let m1 := if hasRoute m route then m else m ++ [(route, emptyRouteInfo)]
  let cur := getRoute m1 route
  let cur1 := { cur with total_tasks := cur.total_tasks + 1 }
  let cur2 :=
    if kv.2.status = some "DONE" then
      { cur1 with done_tasks := cur1.done_tasks + 1,
                  done_dates := cur1.done_dates ++ kv.2.dates }
    else
      { cur1 with pending_dates := cur1.pending_dates ++ kv.2.dates }
  setRoute m1 route cur2

/-- `get_pending_routes_info`: SQL branch without an exception handler
(errors propagate), JSON branch total. -/
def get_pending_routes_info (env : PollInput) :
    Except String (List (Option String × RouteInfo)) :=
  if env.sqliteAvailable then
    match env.sqlRouteRows with
    | .error e => .error e
    | .ok rows => .ok (rows.foldl sqlRouteStep [])
  else .ok (env.jsonTasks.foldl jsonRouteStep [])

/-- Cross-poll state of the metrics engine: the module globals
`_speed_history`, `_last_error_count` and `_error_rate_history`.
Timestamps are exact rationals; task counters are integers. -/
structure MetricsState where
  speed_history : List (ℚ × ℤ)
  last_error_count : ℤ
  error_history : List (ℚ × ℤ)
deriving DecidableEq

/-- The dictionary returned by `calculate_speed_metrics`. -/
structure SpeedMetrics where
  speed_per_minute : ℚ
  speed_per_hour : ℚ
  recent_errors : ℤ
  error_rate : ℚ
  data_points : Nat
deriving DecidableEq

/-- Python `round(x, 2)` on the exact rational value.  (The source rounds
an IEEE double with round-half-to-even; on exact rationals the tie rule is
immaterial to every property below, none of which hits a tie.) -/
def round2 (x : ℚ) : ℚ := (round (x * 100) : ℤ) / 100

/-- Python `round(x, 1)` on the exact rational value. -/
def round1 (x : ℚ) : ℚ := (round (x * 10) : ℤ) / 10

/-- `calculate_speed_metrics`: append the `(now, done)` sample, prune the
speed window to 60 seconds, derive the speed from the oldest and newest
retained samples, record a failed-counter change as a delta event, prune
the error window to 300 seconds, and report the window sums.  Returns the
updated global state together with the metrics dictionary. -/
def calculate_speed_metrics (st : MetricsState) (now : ℚ)
    (done failed : ℤ) : MetricsState × SpeedMetrics :=
  let hist0 := st.speed_history ++ [(now, done)]
  let hist := hist0.filter fun p => now - 60 < p.1
  let speed : ℚ :=
    if 2 ≤ hist.length then
      let oldest := hist.headD (0, 0)
      let newest := hist.getLastD (0, 0)
      let time_diff := newest.1 - oldest.1
      let tasks_diff := newest.2 - oldest.2
      if 0 < time_diff then (tasks_diff : ℚ) / time_diff * 60 else 0
    else 0
  let errPair :=
    if failed ≠ st.last_error_count then
      (st.error_history ++ [(now, failed - st.last_error_count)], failed)
    else (st.error_history, st.last_error_count)
  let err_hist := errPair.1.filter fun p => now - 300 < p.1
  let recent : ℤ := (err_hist.map Prod.snd).sum
  (⟨hist, errPair.2, err_hist⟩,
   ⟨round2 speed, round1 (speed * 60), recent,
    if 0 < recent then round2 ((recent : ℚ) / 5) else 0, hist.length⟩)

/-- The fields of `oal_state.json` read by `calculate_eta`
(`.get(_, 0)` defaults are pre-applied). -/
structure OalState where
  total_operations : ℚ
  completed_operations : ℚ
  routes_total_per_pass : ℚ
deriving DecidableEq

/-- The `eta` dictionary of `calculate_eta`. -/
structure Eta where
  lf_eta : Option ℚ
  oal_eta : Option ℚ
  total_eta : Option ℚ
  lf_eta_formatted : String
  oal_eta_formatted : String
  total_eta_formatted : String
deriving DecidableEq

/-- Python truthiness of a numeric-or-None dictionary entry:
`None` and `0.0` are falsy. -/
def truthyQ : Option ℚ → Bool
  | none => false
  | some v => v != 0

/-- `format_duration`: minutes to a human-readable string; `int()` on the
nonnegative values involved is the floor. -/
def format_duration (m : ℚ) : String :=
  if m < 1 then "< 1 min"
  else if m < 60 then toString m.floor ++ " min"
  else
    let hours := (m / 60).floor
    let mins := m.floor - 60 * hours
    if 0 < mins then toString hours ++ "h " ++ toString mins ++ "m"
    else toString hours ++ "h"

/-- `calculate_eta`: early return of all-"N/A" when the measured speed is
not positive; otherwise the primary (LF) projection, the secondary (OAL)
projection gated on worker count, state presence, remaining operations and
a positive `routes_total_per_pass` (per-worker rate constant 1.5), and the
blended total. -/
def calculate_eta (total done speed : ℚ) (oal_state : Option OalState)
    (oal_workers : Nat) : Eta :=
  let eta0 : Eta := ⟨none, none, none, "N/A", "N/A", "N/A"⟩
  if speed ≤ 0 then eta0
  else
    let lf_remaining := total - done
    let eta1 :=
      if 0 < lf_remaining then
        let m := lf_remaining / speed
        { eta0 with lf_eta := some m, lf_eta_formatted := format_duration m }
      else { eta0 with lf_eta_formatted := "Done" }
    let eta2 :=
      if 0 < oal_workers then
        match oal_state with
        | some os =>
          let remaining_ops := os.total_operations - os.completed_operations
          if 0 < remaining_ops then
            if 0 < os.routes_total_per_pass then
              let oal_speed := (oal_workers : ℚ) * (3 / 2)
              let m := remaining_ops / oal_speed
              { eta1 with oal_eta := some m,
                          oal_eta_formatted := format_duration m }
            else eta1
          else { eta1 with oal_eta_formatted := "Done" }
        | none => eta1
      else { eta1 with oal_eta_formatted := "Disabled" }
    let tm1 : ℚ := if truthyQ eta2.lf_eta then eta2.lf_eta.getD 0 else 0
    let tm : ℚ := if truthyQ eta2.oal_eta then max tm1 (eta2.oal_eta.getD 0) else tm1
    if 0 < tm then
      { eta2 with total_eta := some tm, total_eta_formatted := format_duration tm }
    else if eta2.lf_eta_formatted = "Done" ∧
        (eta2.oal_eta_formatted = "Done" ∨ oal_workers = 0) then
      { eta2 with total_eta_formatted := "Done" }
    else eta2

/-- The overall-percentage blend of `update_status`: force 100 once the LF
percentage has reached 100 and the OAL phase is disabled or has reached
100; otherwise the fixed-weight sum (0.5/0.35/0.15 with OAL enabled,
0.85/0.15 with it disabled). -/
def overall_percent (lf oal excel : ℚ) (oal_workers : Nat) : ℚ :=
  if 100 ≤ lf ∧ (oal_workers = 0 ∨ 100 ≤ oal) then 100
  else if 0 < oal_workers then
    lf * (1 / 2) + oal * (35 / 100) + excel * (15 / 100)
  else lf * (85 / 100) + excel * (15 / 100)

/-- One candidate `run_state.json` of the scanning fallback, with the
derived quantities the source computes for it: `started_ts` is the value
of `_parse_iso_timestamp(run_state.get("started_at"))` (ISO-8601 parsing
elided; 0.0 on an absent or unparsable value), `activity_ts` the value of
`_activity_timestamp_for_checkpoint` (maximum work-artifact mtime, 0.0
when none exists), and `mtime = none` models a raised `stat()` error (the
candidate is skipped by the surrounding `except: continue`). -/
structure Candidate where
  shutdown_type : Option String
  started_ts : ℚ
  activity_ts : ℚ
  mtime : Option ℚ
  path : String
deriving DecidableEq

/-- The composite ranking key
`(is_active, activity_ts, started_ts, run_state_mtime, path)` compared
the way Python compares tuples: lexicographically. -/
abbrev ResolveKey :=
  Lex (Nat × Lex (ℚ × Lex (ℚ × Lex (ℚ × String))))

/-- `is_active = 1 if shutdown_type != "COMPLETED" else 0`, after
`(... or "").strip().upper()`. -/
def isActiveOf (c : Candidate) : Nat :=
  if pyUpper (pyStrip (c.shutdown_type.getD "")) ≠ "COMPLETED" then 1 else 0

def ckey (c : Candidate) (mt : ℚ) : ResolveKey :=
  toLex (isActiveOf c,
    toLex (c.activity_ts, toLex (c.started_ts, toLex (mt, c.path))))

/-- The key of a candidate, `none` when its `stat()` raised. -/
def candKey (c : Candidate) : Option ResolveKey := c.mtime.map (ckey c)

/-- The accumulator update `if best is None or key > best: best = key`. -/
def bestStep {α : Type} [LinearOrder α] (b : Option α) (x : α) : Option α :=
  match b with
  | none => some x
  | some b => if b < x then some x else some b

/-- The path component of a composite key (`best[-1]`). -/
def keyPath (k : ResolveKey) : String :=
  (ofLex (ofLex (ofLex (ofLex k).2).2).2).2

/-- `_select_active_run_state_file`: fold the candidates keeping the
greatest composite key (unreadable `stat()` skips the candidate) and
return the path stored in the best key. -/
def select_active_run_state_file (files : List Candidate) : Option String :=
  ((files.filterMap candKey).foldl bestStep none).map keyPath

/-- Outcomes of the filesystem probes `_read_pointer_file` performs:
`pointer_content = none` models a missing pointer file or a failed
`json.load`, `some d` the `data.get("active_output_dir", "")` value. -/
structure PointerFs where
  pointer_content : Option String
  dir_exists : String → Bool

/-- `_read_pointer_file`: the pointer directory is used only when it and
its "checkpoints" subdirectory exist. -/
def read_pointer_file (fs : PointerFs) : Option String :=
  match fs.pointer_content with
  | some d =>
    if fs.dir_exists d ∧ fs.dir_exists (d ++ "/checkpoints") then some d
    else none
  | none => none

/-- `Path.parent` on a slash-separated path string: drop the last
component. -/
def parentDir (p : String) : String :=
  ⟨(((p.data.reverse.dropWhile fun c => c ≠ '/').drop 1)).reverse⟩

/-- The result of one `refresh_active_paths` call: the updated scan
timestamp, the resolved directories, and whether the directory-scanning
fallback ran during this call. -/
structure RefreshOutcome where
  last_scan_ts : ℚ
  output_dir : String
  checkpoint_dir : String
  scanned : Bool
deriving DecidableEq

/-- `refresh_active_paths`: return the cached paths inside the TTL unless
forced; otherwise try the pointer file first (no scan), and only when it
does not resolve scan the base directories and rank the candidates. -/
def refresh_active_paths (force : Bool) (now last : ℚ)
    (cachedOut cachedCp : String) (fs : PointerFs)
    (cands : List Candidate) (baseDirs : List String) : RefreshOutcome :=
  if ¬force ∧ now - last < 2 then ⟨last, cachedOut, cachedCp, false⟩
  else
    match read_pointer_file fs with
    | some d => ⟨now, d, d ++ "/checkpoints", false⟩
    | none =>
      let cp :=
        match select_active_run_state_file cands with
        | none => (baseDirs.headD "outputs") ++ "/checkpoints"
        | some selected => parentDir selected
      ⟨now, parentDir cp, cp, true⟩

/-! ### Helper lemmas -/

theorem append_ne_last (s t u : String) (h1 : t.data ≠ [])
    (h2 : t.data.getLast? ≠ u.data.getLast?) : s ++ t ≠ u := by
  intro h
  have hd := congrArg String.data h
  rw [String.data_append] at hd
  have hl := congrArg List.getLast? hd
  rw [List.getLast?_append_of_ne_nil _ h1] at hl
  exact h2 hl

theorem format_duration_ne_done (m : ℚ) : format_duration m ≠ "Done" := by
  unfold format_duration
  split_ifs with h1 h2
  · decide
  · exact append_ne_last _ " min" _ (by decide) (by decide)
  · dsimp only
    split_ifs with h3
    · exact append_ne_last _ "m" _ (by decide) (by decide)
    · exact append_ne_last _ "h" _ (by decide) (by decide)

theorem format_duration_ne_disabled (m : ℚ) : format_duration m ≠ "Disabled" := by
  unfold format_duration
  split_ifs with h1 h2
  · decide
  · exact append_ne_last _ " min" _ (by decide) (by decide)
  · dsimp only
    split_ifs with h3
    · exact append_ne_last _ "m" _ (by decide) (by decide)
    · exact append_ne_last _ "h" _ (by decide) (by decide)

/-! ### C7: overall percentage blend -/

/-- C7: for every combination of phase percentages, `overall_percent`
equals the fixed-weight blend (0.5/0.35/0.15 with the OAL phase enabled,
0.85/0.15 with it disabled) except that it is forced to exactly 100 once
the LF percentage has reached 100 and every enabled OAL phase has reached
100, even where the weighted sum would be below 100. -/
theorem c7_overall_percent (lf oal excel : ℚ) (w : Nat) :
    (100 ≤ lf ∧ (w = 0 ∨ 100 ≤ oal) →
      overall_percent lf oal excel w = 100)
    ∧ (¬(100 ≤ lf ∧ (w = 0 ∨ 100 ≤ oal)) →
      overall_percent lf oal excel w =
        if 0 < w then lf * (1 / 2) + oal * (35 / 100) + excel * (15 / 100)
        else lf * (85 / 100) + excel * (15 / 100)) := by
  constructor <;> intro h <;> simp [overall_percent, h]

/-- Witness for C7 at a concrete input on which the raw weighted sum is
below 100 but the result is forced to 100. -/
theorem c7_overall_percent_witness :
    overall_percent 100 100 0 1 = 100 ∧
    (100 * (1 / 2) + 100 * (35 / 100) + 0 * (15 / 100) : ℚ) < 100 := by
  refine ⟨(c7_overall_percent 100 100 0 1).1 ⟨le_refl _, Or.inr (le_refl _)⟩, by norm_num⟩

theorem calculate_eta_all_na (total done speed : ℚ) (os : Option OalState)
    (w : Nat) (hs : speed ≤ 0) :
    calculate_eta total done speed os w = ⟨none, none, none, "N/A", "N/A", "N/A"⟩ := by
  unfold calculate_eta
  rw [if_pos hs]

theorem calculate_eta_lf_pos (total done speed : ℚ) (os : Option OalState)
    (w : Nat) (hs : 0 < speed) (hr : 0 < total - done) :
    (calculate_eta total done speed os w).lf_eta = some ((total - done) / speed) ∧
    (calculate_eta total done speed os w).lf_eta_formatted =
      format_duration ((total - done) / speed) := by
  unfold calculate_eta
  rw [if_neg (not_le.mpr hs)]
  dsimp only
  rw [if_pos hr]
  rcases os with _ | osv <;> dsimp only <;> split_ifs <;> simp

theorem calculate_eta_lf_done (total done speed : ℚ) (os : Option OalState)
    (w : Nat) (hs : 0 < speed) (hr : total - done ≤ 0) :
    (calculate_eta total done speed os w).lf_eta = none ∧
    (calculate_eta total done speed os w).lf_eta_formatted = "Done" := by
  unfold calculate_eta
  rw [if_neg (not_le.mpr hs)]
  dsimp only
  rw [if_neg (not_lt.mpr hr)]
  rcases os with _ | osv <;> dsimp only <;> split_ifs <;> simp

theorem calculate_eta_oal_pos (total done speed : ℚ) (osv : OalState)
    (w : Nat) (hs : 0 < speed) (hw : 0 < w)
    (hro : 0 < osv.total_operations - osv.completed_operations)
    (hroutes : 0 < osv.routes_total_per_pass) :
    (calculate_eta total done speed (some osv) w).oal_eta =
      some ((osv.total_operations - osv.completed_operations) / ((w : ℚ) * (3 / 2))) ∧
    (calculate_eta total done speed (some osv) w).oal_eta_formatted =
      format_duration
        ((osv.total_operations - osv.completed_operations) / ((w : ℚ) * (3 / 2))) := by
  unfold calculate_eta
  rw [if_neg (not_le.mpr hs)]
  dsimp only
  rw [if_pos hw]
  rw [if_pos hro, if_pos hroutes]
  split_ifs <;> simp

theorem calculate_eta_oal_done (total done speed : ℚ) (osv : OalState)
    (w : Nat) (hs : 0 < speed) (hw : 0 < w)
    (hro : osv.total_operations - osv.completed_operations ≤ 0) :
    (calculate_eta total done speed (some osv) w).oal_eta = none ∧
    (calculate_eta total done speed (some osv) w).oal_eta_formatted = "Done" := by
  unfold calculate_eta
  rw [if_neg (not_le.mpr hs)]
  dsimp only
  rw [if_pos hw]
  rw [if_neg (not_lt.mpr hro)]
  split_ifs <;> simp

theorem calculate_eta_total_max (total done speed : ℚ) (osv : OalState)
    (w : Nat) (hs : 0 < speed) (hw : 0 < w) (hlf : 0 < total - done)
    (hro : 0 < osv.total_operations - osv.completed_operations)
    (hroutes : 0 < osv.routes_total_per_pass) :
    (calculate_eta total done speed (some osv) w).total_eta =
      some (max ((total - done) / speed)
        ((osv.total_operations - osv.completed_operations) / ((w : ℚ) * (3 / 2)))) := by
  have hlfm : (0 : ℚ) < (total - done) / speed := div_pos hlf hs
  have hwq : (0 : ℚ) < (w : ℚ) * (3 / 2) := by
    have : (0 : ℚ) < (w : ℚ) := by exact_mod_cast hw
    nlinarith
  have hoalm : (0 : ℚ) <
      (osv.total_operations - osv.completed_operations) / ((w : ℚ) * (3 / 2)) :=
    div_pos hro hwq
  unfold calculate_eta
  rw [if_neg (not_le.mpr hs)]
  dsimp only
  rw [if_pos hlf, if_pos hw, if_pos hro, if_pos hroutes]
  dsimp only [truthyQ]
  have hne1 : ((total - done) / speed != 0) = true := by
    simpa [bne_iff_ne] using ne_of_gt hlfm
  have hne2 : ((osv.total_operations - osv.completed_operations) /
      ((w : ℚ) * (3 / 2)) != 0) = true := by
    simpa [bne_iff_ne] using ne_of_gt hoalm
  simp only [hne1, hne2, eq_self_iff_true, if_true, Option.getD_some]
  rw [if_pos (lt_max_iff.mpr (Or.inl hlfm))]

theorem calculate_eta_total_disabled (total done speed : ℚ)
    (os : Option OalState) (hs : 0 < speed) :
    (calculate_eta total done speed os 0).oal_eta_formatted = "Disabled" ∧
    (calculate_eta total done speed os 0).total_eta =
      (calculate_eta total done speed os 0).lf_eta ∧
    (0 < total - done →
      (calculate_eta total done speed os 0).total_eta_formatted =
        format_duration ((total - done) / speed)) := by
  unfold calculate_eta
  rw [if_neg (not_le.mpr hs)]
  dsimp only
  rw [if_neg (lt_irrefl 0)]
  by_cases hlf : 0 < total - done
  · rw [if_pos hlf]
    dsimp only [truthyQ]
    have hne1 : ((total - done) / speed != 0) = true := by
      simpa [bne_iff_ne] using ne_of_gt (div_pos hlf hs)
    simp only [hne1, eq_self_iff_true, if_true, Bool.false_eq_true, if_false,
      Option.getD_some]
    rw [if_pos (div_pos hlf hs)]
    exact ⟨rfl, rfl, fun _ => rfl⟩
  · rw [if_neg hlf]
    dsimp only [truthyQ]
    simp only [Bool.false_eq_true, if_false, lt_irrefl, eq_self_iff_true]
    refine ⟨?_, ?_, fun h => absurd h hlf⟩ <;> norm_num

theorem calculate_eta_done_only (total done speed : ℚ) (os : Option OalState)
    (w : Nat) (h : (calculate_eta total done speed os w).total_eta_formatted = "Done") :
    (calculate_eta total done speed os w).lf_eta_formatted = "Done" ∧
    ((calculate_eta total done speed os w).oal_eta_formatted = "Done" ∨ w = 0) := by
  by_cases hsp : speed ≤ 0
  · rw [calculate_eta_all_na total done speed os w hsp] at h
    exact absurd h (by decide)
  · unfold calculate_eta at h ⊢
    rw [if_neg hsp] at h ⊢
    dsimp only at h ⊢
    rcases os with _ | osv <;> dsimp only at h ⊢ <;>
      split_ifs at h ⊢ <;>
      first
        | exact absurd h (by decide)
        | exact absurd h (format_duration_ne_done _)
        | simp_all

/-! ### C3: primary-queue ETA -/

/-- C3 counterexample: at `total = done = 5` with zero speed no work
remains, yet the primary ETA is reported "N/A", not "Done" — the claim's
"Done whenever total - done ≤ 0 regardless of the speed value" fails. -/
theorem c3_counterexample :
    ((5 : ℚ) - 5 ≤ 0) ∧
    (calculate_eta 5 5 0 none 0).lf_eta_formatted = "N/A" ∧
    (calculate_eta 5 5 0 none 0).lf_eta_formatted ≠ "Done" := by
  refine ⟨by norm_num, ?_, ?_⟩ <;> decide

/-- C3 (amended): with positive speed the primary ETA is
`(total - done) / speedPerMinute` when work remains and "Done" when none
remains; when `speedPerMinute ≤ 0` the phase reports "N/A" whether or not
work remains (the early return precedes the remaining-work test). -/
theorem c3_primary_eta (total done speed : ℚ) (os : Option OalState)
    (w : Nat) :
    (0 < speed → 0 < total - done →
      (calculate_eta total done speed os w).lf_eta =
        some ((total - done) / speed) ∧
      (calculate_eta total done speed os w).lf_eta_formatted =
        format_duration ((total - done) / speed)) ∧
    (0 < speed → total - done ≤ 0 →
      (calculate_eta total done speed os w).lf_eta_formatted = "Done") ∧
    (speed ≤ 0 →
      (calculate_eta total done speed os w).lf_eta_formatted = "N/A") := by
  refine ⟨fun hs hr => calculate_eta_lf_pos total done speed os w hs hr,
    fun hs hr => (calculate_eta_lf_done total done speed os w hs hr).2,
    fun hs => ?_⟩
  rw [calculate_eta_all_na total done speed os w hs]

/-- Witness for C3 at concrete inputs. -/
theorem c3_primary_eta_witness :
    (calculate_eta 10 4 2 none 0).lf_eta = some 3 ∧
    (calculate_eta 7 2 (-1) none 0).lf_eta_formatted = "N/A" := by
  constructor
  · have h := ((c3_primary_eta 10 4 2 none 0).1 (by norm_num) (by norm_num)).1
    rw [h]; norm_num
  · exact (c3_primary_eta 7 2 (-1) none 0).2.2 (by norm_num)

/-! ### C4: secondary-phase ETA -/

/-- C4 counterexample: workers and state are present and operations
remain, yet with `routes_total_per_pass = 0` no secondary ETA is computed
— the claim's "with no other precondition" fails (and it also requires the
measured primary speed to be positive to get past the early return). -/
theorem c4_counterexample :
    ((0 : ℚ) < 10 - 0) ∧
    (calculate_eta 0 0 1 (some ⟨10, 0, 0⟩) 1).oal_eta = none := by
  refine ⟨by norm_num, ?_⟩
  unfold calculate_eta
  rw [if_neg (show ¬(1 : ℚ) ≤ 0 by norm_num)]
  dsimp only
  rw [if_neg (show ¬(0 : ℚ) < 0 - 0 by norm_num),
    if_pos (show 0 < 1 by norm_num),
    if_pos (show (0 : ℚ) <
      (OalState.mk 10 0 0).total_operations -
        (OalState.mk 10 0 0).completed_operations by norm_num),
    if_neg (show ¬(0 : ℚ) < (OalState.mk 10 0 0).routes_total_per_pass
      by norm_num)]
  split_ifs <;> rfl

/-- C4 (amended): provided additionally that the measured primary speed is
positive and `routes_total_per_pass > 0`, the secondary ETA equals
`(totalOps - completedOps) / (workerCount * 1.5)` when operations remain,
and the phase reports "Done" when none remain. -/
theorem c4_secondary_eta (total done speed : ℚ) (osv : OalState) (w : Nat) :
    (0 < speed → 0 < w →
      0 < osv.total_operations - osv.completed_operations →
      0 < osv.routes_total_per_pass →
      (calculate_eta total done speed (some osv) w).oal_eta =
        some ((osv.total_operations - osv.completed_operations) /
          ((w : ℚ) * (3 / 2)))) ∧
    (0 < speed → 0 < w →
      osv.total_operations - osv.completed_operations ≤ 0 →
      (calculate_eta total done speed (some osv) w).oal_eta_formatted =
        "Done") := by
  exact ⟨fun hs hw hro hroutes =>
      (calculate_eta_oal_pos total done speed osv w hs hw hro hroutes).1,
    fun hs hw hro =>
      (calculate_eta_oal_done total done speed osv w hs hw hro).2⟩

/-- Witness for C4 at concrete inputs: 9 remaining operations with 2
workers yield `9 / 3 = 3` minutes, and no remaining operations yield
"Done". -/
theorem c4_secondary_eta_witness :
    (calculate_eta 0 0 1 (some ⟨10, 1, 5⟩) 2).oal_eta = some 3 ∧
    (calculate_eta 0 0 1 (some ⟨4, 4, 5⟩) 2).oal_eta_formatted = "Done" := by
  constructor
  · have h := (c4_secondary_eta 0 0 1 ⟨10, 1, 5⟩ 2).1
      (by norm_num) (by norm_num) (by norm_num) (by norm_num)
    rw [h]; norm_num
  · exact (c4_secondary_eta 0 0 1 ⟨4, 4, 5⟩ 2).2
      (by norm_num) (by norm_num) (by norm_num)

/-! ### C5: overall ETA -/

/-- C5 counterexample: with the secondary phase disabled (worker count 0)
and work remaining at speed 1, the overall formatted ETA is "10 min", not
"Disabled" — only the secondary phase's formatted field reads "Disabled". -/
theorem c5_counterexample :
    (calculate_eta 10 0 1 none 0).total_eta = some 10 ∧
    (calculate_eta 10 0 1 none 0).total_eta_formatted ≠ "Disabled" := by
  have hd := calculate_eta_total_disabled 10 0 1 none (by norm_num)
  have hlf := calculate_eta_lf_pos 10 0 1 none 0 (by norm_num) (by norm_num)
  constructor
  · rw [hd.2.1, hlf.1]
    norm_num
  · rw [hd.2.2 (by norm_num)]
    exact format_duration_ne_disabled _

/-- C5 (amended): when both phases produce an ETA the overall ETA is their
maximum; with the secondary phase disabled (and past the positive-speed
early return) the secondary formatted field is "Disabled" while the
overall ETA equals the primary ETA; and the overall formatted value is
"Done" only when the primary phase reports "Done" and the secondary phase
reports "Done" or is disabled. -/
theorem c5_overall_eta (total done speed : ℚ) (osv : OalState)
    (os : Option OalState) (w : Nat) :
    (0 < speed → 0 < w → 0 < total - done →
      0 < osv.total_operations - osv.completed_operations →
      0 < osv.routes_total_per_pass →
      (calculate_eta total done speed (some osv) w).total_eta =
        some (max ((total - done) / speed)
          ((osv.total_operations - osv.completed_operations) /
            ((w : ℚ) * (3 / 2))))) ∧
    (0 < speed →
      (calculate_eta total done speed os 0).oal_eta_formatted = "Disabled" ∧
      (calculate_eta total done speed os 0).total_eta =
        (calculate_eta total done speed os 0).lf_eta) ∧
    ((calculate_eta total done speed os w).total_eta_formatted = "Done" →
      (calculate_eta total done speed os w).lf_eta_formatted = "Done" ∧
      ((calculate_eta total done speed os w).oal_eta_formatted = "Done" ∨
        w = 0)) := by
  refine ⟨fun hs hw hlf hro hroutes =>
      calculate_eta_total_max total done speed osv w hs hw hlf hro hroutes,
    fun hs => ⟨(calculate_eta_total_disabled total done speed os hs).1,
      (calculate_eta_total_disabled total done speed os hs).2.1⟩,
    fun h => calculate_eta_done_only total done speed os w h⟩

/-- Witness for C5 at concrete inputs: primary 10 minutes and secondary 5
minutes blend to `max 10 5 = 10`; with worker count 0 the secondary field
is "Disabled". -/
theorem c5_overall_eta_witness :
    (calculate_eta 10 0 1 (some ⟨30, 0, 5⟩) 4).total_eta = some 10 ∧
    (calculate_eta 10 0 1 none 0).oal_eta_formatted = "Disabled" := by
  constructor
  · have h := (c5_overall_eta 10 0 1 ⟨30, 0, 5⟩ (some ⟨30, 0, 5⟩) 4).1
      (by norm_num) (by norm_num) (by norm_num) (by norm_num) (by norm_num)
    rw [h]
    norm_num
  · exact ((c5_overall_eta 10 0 1 ⟨30, 0, 5⟩ none 0).2.1 (by norm_num)).1

/-! ### JSON fold lemmas -/

theorem jsonStep_total (acc : Progress) (kv : String × JsonTask) :
    (jsonStep acc kv).total = acc.total := by
  unfold jsonStep
  dsimp only
  split_ifs <;> rfl

theorem jsonFold_total (tasks : List (String × JsonTask)) :
    ∀ acc : Progress, (tasks.foldl jsonStep acc).total = acc.total := by
  induction tasks with
  | nil => intro acc; rfl
  | cons kv rest ih =>
    intro acc
    rw [List.foldl_cons, ih, jsonStep_total]

theorem jsonFold_pending (tasks : List (String × JsonTask)) :
    ∀ acc : Progress, (tasks.foldl jsonStep acc).pending =
      acc.pending + tasks.countP jsonPendingP := by
  induction tasks with
  | nil => intro acc; simp
  | cons kv rest ih =>
    intro acc
    rw [List.foldl_cons, ih, List.countP_cons]
    unfold jsonStep jsonPendingP
    dsimp only
    split_ifs <;> simp_all <;> omega

theorem jsonFold_sum (tasks : List (String × JsonTask)) :
    ∀ acc : Progress,
      (tasks.foldl jsonStep acc).done + (tasks.foldl jsonStep acc).running +
        (tasks.foldl jsonStep acc).pending + (tasks.foldl jsonStep acc).failed =
      acc.done + acc.running + acc.pending + acc.failed + tasks.length := by
  induction tasks with
  | nil => intro acc; simp
  | cons kv rest ih =>
    intro acc
    rw [List.foldl_cons, ih]
    unfold jsonStep
    dsimp only
    split_ifs <;> simp <;> omega

/-! ### SQLite stats lemmas -/

theorem statsStep_pending_eq (st : SqliteStats) (c : Nat) :
    statsStep st ("pending", c) =
      { st with pending := c, total := st.total + c } := rfl

theorem statsStep_running_eq (st : SqliteStats) (c : Nat) :
    statsStep st ("running", c) =
      { st with running := c, total := st.total + c } := rfl

theorem statsStep_done_eq (st : SqliteStats) (c : Nat) :
    statsStep st ("done", c) =
      { st with done := c, total := st.total + c } := rfl

theorem statsStep_failed_eq (st : SqliteStats) (c : Nat) :
    statsStep st ("failed", c) =
      { st with failed := c, total := st.total + c } := rfl

theorem statsStep_failex_eq (st : SqliteStats) (c : Nat) :
    statsStep st ("failed_exhausted", c) =
      { st with failed_exhausted := c, total := st.total + c } := rfl

theorem mem_recognized_iff (s : String) :
    s ∈ recognizedStates ↔ s = "pending" ∨ s = "running" ∨ s = "done" ∨
      s = "failed" ∨ s = "failed_exhausted" := by
  simp [recognizedStates]

theorem statField_pending (st : SqliteStats) :
    statField st "pending" = st.pending := rfl

theorem statField_running (st : SqliteStats) :
    statField st "running" = st.running := rfl

theorem statField_done (st : SqliteStats) :
    statField st "done" = st.done := rfl

theorem statField_failed (st : SqliteStats) :
    statField st "failed" = st.failed := rfl

theorem statField_failex (st : SqliteStats) :
    statField st "failed_exhausted" = st.failed_exhausted := rfl

theorem statsStep_sum5 (st : SqliteStats) (s : String) (c : Nat)
    (hs : s ∈ recognizedStates) (h0 : statField st s = 0) :
    sum5 (statsStep st (s, c)) = sum5 st + c := by
  rcases (mem_recognized_iff s).mp hs with rfl | rfl | rfl | rfl | rfl <;>
    [rw [statField_pending] at h0; rw [statField_running] at h0;
     rw [statField_done] at h0; rw [statField_failed] at h0;
     rw [statField_failex] at h0] <;>
    [rw [statsStep_pending_eq]; rw [statsStep_running_eq];
     rw [statsStep_done_eq]; rw [statsStep_failed_eq];
     rw [statsStep_failex_eq]] <;>
    simp [sum5] <;> omega

theorem statsStep_total_eq (st : SqliteStats) (s : String) (c : Nat)
    (hs : s ∈ recognizedStates) :
    (statsStep st (s, c)).total = st.total + c := by
  rcases (mem_recognized_iff s).mp hs with rfl | rfl | rfl | rfl | rfl <;> rfl

theorem statsStep_statField (st : SqliteStats) (s : String) (c : Nat)
    (t : String) (hs : s ∈ recognizedStates) (ht : t ∈ recognizedStates)
    (hne : t ≠ s) :
    statField (statsStep st (s, c)) t = statField st t := by
  rcases (mem_recognized_iff s).mp hs with rfl | rfl | rfl | rfl | rfl <;>
    rcases (mem_recognized_iff t).mp ht with rfl | rfl | rfl | rfl | rfl <;>
    first
      | exact absurd rfl hne
      | rfl

theorem statField_zero (s : String) : statField ⟨0, 0, 0, 0, 0, 0⟩ s = 0 := by
  unfold statField
  split_ifs <;> rfl

theorem statsFold_inv (gs : List (String × Nat)) :
    ∀ acc : SqliteStats,
      (∀ p ∈ gs, p.1 ∈ recognizedStates) →
      (gs.map Prod.fst).Nodup →
      (∀ p ∈ gs, statField acc p.1 = 0) →
      sum5 acc = acc.total →
      sum5 (gs.foldl statsStep acc) = (gs.foldl statsStep acc).total := by
  induction gs with
  | nil => intro acc _ _ _ h; simpa using h
  | cons p rest ih =>
    intro acc hrec hnd h0 hsum
    rcases p with ⟨s, c⟩
    rw [List.foldl_cons]
    have hsrec : s ∈ recognizedStates := hrec (s, c) (by simp)
    have hnd2 : (s :: rest.map Prod.fst).Nodup := by simpa using hnd
    apply ih
    · intro q hq
      exact hrec q (List.mem_cons_of_mem _ hq)
    · exact (List.nodup_cons.mp hnd2).2
    · intro q hq
      have hqs : q.1 ≠ s := by
        intro he
        exact (List.nodup_cons.mp hnd2).1 (he ▸ List.mem_map_of_mem Prod.fst hq)
      rw [statsStep_statField acc s c q.1 hsrec
        (hrec q (List.mem_cons_of_mem _ hq)) hqs]
      exact h0 q (List.mem_cons_of_mem _ hq)
    · rw [statsStep_sum5 acc s c hsrec (h0 (s, c) (by simp)),
        statsStep_total_eq acc s c hsrec, hsum]

/-! ### C1: progress-sum invariant -/

/-- C1 counterexample: a SQLite task table holding one row with the
unrecognised state "weird" is counted in `total` but in no bucket, so
`done + running + pending + failed = 0 ≠ 1 = total`. -/
theorem c1_counterexample :
    (calculate_progress_from_sqlite ["weird"]).done +
      (calculate_progress_from_sqlite ["weird"]).running +
      (calculate_progress_from_sqlite ["weird"]).pending +
      (calculate_progress_from_sqlite ["weird"]).failed ≠
    (calculate_progress_from_sqlite ["weird"]).total := by
  decide

/-- C1 (amended): the JSON backend satisfies
`done + running + pending + failed = total` for every task map; the SQLite
backend satisfies it provided every row state is one of
pending/running/done/failed/failed_exhausted — a row with any other state
increments `total` only and breaks the identity. -/
theorem c1_progress_sum (tasks : List (String × JsonTask))
    (rows : List String) :
    ((jsonProgress tasks).done + (jsonProgress tasks).running +
      (jsonProgress tasks).pending + (jsonProgress tasks).failed =
      (jsonProgress tasks).total) ∧
    ((∀ s ∈ rows, s ∈ recognizedStates) →
      (calculate_progress_from_sqlite rows).done +
        (calculate_progress_from_sqlite rows).running +
        (calculate_progress_from_sqlite rows).pending +
        (calculate_progress_from_sqlite rows).failed =
        (calculate_progress_from_sqlite rows).total) := by
  constructor
  · unfold jsonProgress
    split_ifs with h
    · rfl
    · rw [jsonFold_sum tasks ⟨tasks.length, 0, 0, 0, 0⟩,
        jsonFold_total tasks ⟨tasks.length, 0, 0, 0, 0⟩]
      simp
  · intro h
    have hrec : ∀ p ∈ groupStates rows, p.1 ∈ recognizedStates := by
      intro p hp
      rcases List.mem_map.mp hp with ⟨s, hsmem, rfl⟩
      exact h s (List.mem_dedup.mp hsmem)
    have hnd : ((groupStates rows).map Prod.fst).Nodup := by
      have : (groupStates rows).map Prod.fst = rows.dedup := by
        simp only [groupStates, List.map_map]
        exact List.map_id _
      rw [this]
      exact List.nodup_dedup rows
    have hinv := statsFold_inv (groupStates rows) ⟨0, 0, 0, 0, 0, 0⟩ hrec hnd
      (fun p _ => statField_zero p.1) rfl
    unfold calculate_progress_from_sqlite sqlite_get_task_stats
    dsimp only
    unfold sum5 at hinv
    omega

/-- Witness for C1 at concrete inputs: a two-task JSON map and a SQLite
table whose states are all recognised. -/
theorem c1_progress_sum_witness :
    ((jsonProgress [("a", ⟨some "DONE", none, none, []⟩),
        ("b", ⟨some "weird", none, none, []⟩)]).done +
      (jsonProgress [("a", ⟨some "DONE", none, none, []⟩),
        ("b", ⟨some "weird", none, none, []⟩)]).running +
      (jsonProgress [("a", ⟨some "DONE", none, none, []⟩),
        ("b", ⟨some "weird", none, none, []⟩)]).pending +
      (jsonProgress [("a", ⟨some "DONE", none, none, []⟩),
        ("b", ⟨some "weird", none, none, []⟩)]).failed =
      (jsonProgress [("a", ⟨some "DONE", none, none, []⟩),
        ("b", ⟨some "weird", none, none, []⟩)]).total) ∧
    ((calculate_progress_from_sqlite
        ["done", "failed_exhausted", "pending", "done"]).done +
      (calculate_progress_from_sqlite
        ["done", "failed_exhausted", "pending", "done"]).running +
      (calculate_progress_from_sqlite
        ["done", "failed_exhausted", "pending", "done"]).pending +
      (calculate_progress_from_sqlite
        ["done", "failed_exhausted", "pending", "done"]).failed =
      (calculate_progress_from_sqlite
        ["done", "failed_exhausted", "pending", "done"]).total) :=
  ⟨(c1_progress_sum [("a", ⟨some "DONE", none, none, []⟩),
      ("b", ⟨some "weird", none, none, []⟩)] []).1,
   (c1_progress_sum [] ["done", "failed_exhausted", "pending", "done"]).2
     (by decide)⟩

/-! ### C10: unrecognised states count as pending -/

/-- C10: in the JSON backend every task whose status is absent or not one
of DONE/RUNNING/FAILED lands in the `pending` bucket while still counting
toward `total`; and the SQLite task-detail status mapping sends every
state whose lowercase form is unrecognised to "PENDING". -/
theorem c10_unrecognized_pending :
    (∀ tasks : List (String × JsonTask),
      (jsonProgress tasks).total = tasks.length ∧
      (jsonProgress tasks).pending = tasks.countP jsonPendingP) ∧
    (∀ st : Option String,
      pyLower (st.getD "") ≠ "running" →
      pyLower (st.getD "") ≠ "done" →
      pyLower (st.getD "") ≠ "failed" →
      pyLower (st.getD "") ≠ "failed_exhausted" →
      map_sqlite_state_to_task_status st = "PENDING") := by
  constructor
  · intro tasks
    unfold jsonProgress
    split_ifs with h
    · subst h; exact ⟨rfl, rfl⟩
    · exact ⟨jsonFold_total tasks ⟨tasks.length, 0, 0, 0, 0⟩,
        by rw [jsonFold_pending tasks ⟨tasks.length, 0, 0, 0, 0⟩]; simp⟩
  · intro st h1 h2 h3 h4
    unfold map_sqlite_state_to_task_status
    dsimp only
    rw [if_neg h1, if_neg h2, if_neg (not_or.mpr ⟨h3, h4⟩)]

/-- Witness for C10 at concrete inputs: a map with one bogus-status task,
one absent-status task and one done task, plus an unrecognised SQL
state. -/
theorem c10_unrecognized_pending_witness :
    (jsonProgress [("a", ⟨some "BOGUS", none, none, []⟩),
      ("b", ⟨none, none, none, []⟩),
      ("c", ⟨some "DONE", none, none, []⟩)]).pending = 2 ∧
    (jsonProgress [("a", ⟨some "BOGUS", none, none, []⟩),
      ("b", ⟨none, none, none, []⟩),
      ("c", ⟨some "DONE", none, none, []⟩)]).total = 3 ∧
    map_sqlite_state_to_task_status (some "Stale") = "PENDING" := by
  refine ⟨?_, ?_, ?_⟩
  · rw [(c10_unrecognized_pending.1 [("a", ⟨some "BOGUS", none, none, []⟩),
      ("b", ⟨none, none, none, []⟩),
      ("c", ⟨some "DONE", none, none, []⟩)]).2]
    decide
  · rw [(c10_unrecognized_pending.1 [("a", ⟨some "BOGUS", none, none, []⟩),
      ("b", ⟨none, none, none, []⟩),
      ("c", ⟨some "DONE", none, none, []⟩)]).1]
    decide
  · exact c10_unrecognized_pending.2 (some "Stale")
      (by decide) (by decide) (by decide) (by decide)

/-! ### C6: error-window metrics -/

theorem calculate_speed_metrics_error_history (st : MetricsState) (now : ℚ)
    (done failed : ℤ) :
    (calculate_speed_metrics st now done failed).1.error_history =
      (if failed ≠ st.last_error_count
        then st.error_history ++ [(now, failed - st.last_error_count)]
        else st.error_history).filter (fun p => now - 300 < p.1) := by
  unfold calculate_speed_metrics
  dsimp only
  split_ifs <;> rfl

theorem calculate_speed_metrics_recent (st : MetricsState) (now : ℚ)
    (done failed : ℤ) :
    (calculate_speed_metrics st now done failed).2.recent_errors =
      (((calculate_speed_metrics st now done failed).1.error_history).map
        Prod.snd).sum := by
  unfold calculate_speed_metrics
  dsimp only

theorem calculate_speed_metrics_rate (st : MetricsState) (now : ℚ)
    (done failed : ℤ) :
    (calculate_speed_metrics st now done failed).2.error_rate =
      (if 0 < (calculate_speed_metrics st now done failed).2.recent_errors
        then round2
          (((calculate_speed_metrics st now done failed).2.recent_errors : ℚ) / 5)
        else 0) := by
  unfold calculate_speed_metrics
  dsimp only

theorem round2_int_div_five (k : ℤ) :
    round2 ((k : ℚ) / 5) = (k : ℚ) / 5 := by
  unfold round2
  have h : ((k : ℚ) / 5) * 100 = ((20 * k : ℤ) : ℚ) := by push_cast; ring
  rw [h, round_intCast]
  push_cast
  ring

/-- C6 counterexample: with the previous failed counter at 5 and the new
sample reporting 3, the counter has decreased yet an event is appended,
and its delta is the negative value -2. -/
theorem c6_counterexample :
    (calculate_speed_metrics ⟨[], 5, []⟩ 1000 0 3).1.error_history =
      [(1000, -2)] ∧ (3 : ℤ) < 5 ∧ (-2 : ℤ) < 0 := by
  refine ⟨?_, by norm_num, by norm_num⟩
  rw [calculate_speed_metrics_error_history]
  norm_num

/-- C6 (amended): an error event is appended exactly when the failed
counter differs from the previous sample (so a decrease also appends, with
a negative delta; the delta is positive precisely on an increase); every
retained event is a previous event or the new delta; and the reported
errorRate equals the retained-delta sum divided by 5 when that sum is
positive and 0 otherwise. -/
theorem c6_error_metrics (st : MetricsState) (now : ℚ) (done failed : ℤ) :
    (∀ e ∈ (calculate_speed_metrics st now done failed).1.error_history,
      e ∈ st.error_history ∨ e = (now, failed - st.last_error_count)) ∧
    (st.last_error_count < failed →
      (now, failed - st.last_error_count) ∈
        (calculate_speed_metrics st now done failed).1.error_history ∧
      0 < failed - st.last_error_count) ∧
    (failed < st.last_error_count →
      (now, failed - st.last_error_count) ∈
        (calculate_speed_metrics st now done failed).1.error_history ∧
      failed - st.last_error_count < 0) ∧
    (failed = st.last_error_count →
      (calculate_speed_metrics st now done failed).1.error_history =
        st.error_history.filter (fun p => now - 300 < p.1)) ∧
    ((calculate_speed_metrics st now done failed).2.recent_errors =
      (((calculate_speed_metrics st now done failed).1.error_history).map
        Prod.snd).sum) ∧
    (0 < (calculate_speed_metrics st now done failed).2.recent_errors →
      (calculate_speed_metrics st now done failed).2.error_rate =
        ((calculate_speed_metrics st now done failed).2.recent_errors : ℚ) / 5) ∧
    ((calculate_speed_metrics st now done failed).2.recent_errors ≤ 0 →
      (calculate_speed_metrics st now done failed).2.error_rate = 0) := by
  have hmem : (now, failed - st.last_error_count).1 > now - 300 := by
    dsimp only
    linarith
  refine ⟨?_, ?_, ?_, ?_, calculate_speed_metrics_recent st now done failed,
    ?_, ?_⟩
  · intro e he
    rw [calculate_speed_metrics_error_history] at he
    rcases List.mem_filter.mp he with ⟨hin, -⟩
    by_cases hch : failed = st.last_error_count
    · rw [if_neg (fun hne => hne hch)] at hin
      exact Or.inl hin
    · rw [if_pos hch] at hin
      rcases List.mem_append.mp hin with h | h
      · exact Or.inl h
      · exact Or.inr (List.mem_singleton.mp h)
  · intro hlt
    refine ⟨?_, by omega⟩
    rw [calculate_speed_metrics_error_history,
      if_pos (show failed ≠ st.last_error_count by omega)]
    exact List.mem_filter.mpr
      ⟨List.mem_append_right _ (List.mem_singleton.mpr rfl), by simpa using hmem⟩
  · intro hlt
    refine ⟨?_, by omega⟩
    rw [calculate_speed_metrics_error_history,
      if_pos (show failed ≠ st.last_error_count by omega)]
    exact List.mem_filter.mpr
      ⟨List.mem_append_right _ (List.mem_singleton.mpr rfl), by simpa using hmem⟩
  · intro heq
    rw [calculate_speed_metrics_error_history, if_neg (fun hne => hne heq)]
  · intro hpos
    rw [calculate_speed_metrics_rate, if_pos hpos, round2_int_div_five]
  · intro hnonpos
    rw [calculate_speed_metrics_rate, if_neg (not_lt.mpr hnonpos)]

/-- Witness for C6 at concrete inputs: an increase from 1 to 4 appends the
delta 3 and yields an error rate of 3/5 failures per minute. -/
theorem c6_error_metrics_witness :
    (1000, 3) ∈ (calculate_speed_metrics ⟨[], 1, []⟩ 1000 0 4).1.error_history ∧
    (calculate_speed_metrics ⟨[], 1, []⟩ 1000 0 4).2.error_rate =
      ((calculate_speed_metrics ⟨[], 1, []⟩ 1000 0 4).2.recent_errors : ℚ) / 5 := by
  constructor
  · have h := ((c6_error_metrics ⟨[], 1, []⟩ 1000 0 4).2.1 (by norm_num)).1
    simpa using h
  · have hr : (calculate_speed_metrics ⟨[], 1, []⟩ 1000 0 4).2.recent_errors = 3 := by
      rw [calculate_speed_metrics_recent, calculate_speed_metrics_error_history]
      norm_num
    exact (c6_error_metrics ⟨[], 1, []⟩ 1000 0 4).2.2.2.2.2.1 (by rw [hr]; norm_num)

/-! ### C2: per-poll backend fallback -/

/-- C2 counterexample: with the SQLite checkpoint present, a raised error
on the worker-status query propagates to the caller instead of falling
back to the JSON backend — the claim's "every SQL-reading operation of the
poll" fails for `get_worker_status_from_tasks`. -/
theorem c2_counterexample :
    get_worker_status_from_tasks
      ⟨true, .ok [], .error "database is locked", .ok [], [], [9222]⟩ =
      .error "database is locked" ∧
    get_pending_routes_info
      ⟨true, .ok [], .ok [], .error "database is locked", [], [9222]⟩ =
      .error "database is locked" := ⟨rfl, rfl⟩

/-- C2 (amended): the progress-summary read alone implements the per-poll
fallback — it returns the JSON result on a SQL error, the SQL result on a
SQL success (the choice depends only on this poll's probe and read
outcomes, so the fallback is per-poll), and its total return type never
propagates an error; the worker-status and pending-routes SQL reads have
no handler and propagate their errors to the caller. -/
theorem c2_fallback (env : PollInput) :
    (env.sqliteAvailable = true → ∀ e, env.sqlTaskRows = .error e →
      calculate_progress_from_tasks env = jsonProgress env.jsonTasks) ∧
    (env.sqliteAvailable = true → ∀ rows, env.sqlTaskRows = .ok rows →
      calculate_progress_from_tasks env = calculate_progress_from_sqlite rows) ∧
    (env.sqliteAvailable = false →
      calculate_progress_from_tasks env = jsonProgress env.jsonTasks) ∧
    (env.sqliteAvailable = true → ∀ e, env.sqlHeartbeats = .error e →
      get_worker_status_from_tasks env = .error e) ∧
    (env.sqliteAvailable = true → ∀ e, env.sqlRouteRows = .error e →
      get_pending_routes_info env = .error e) := by
  refine ⟨?_, ?_, ?_, ?_, ?_⟩
  · intro ha e he
    unfold calculate_progress_from_tasks
    rw [if_pos (by simp [ha]), he]
  · intro ha rows hrows
    unfold calculate_progress_from_tasks
    rw [if_pos (by simp [ha]), hrows]
  · intro ha
    unfold calculate_progress_from_tasks
    rw [if_neg (by simp [ha])]
  · intro ha e he
    unfold get_worker_status_from_tasks
    rw [if_pos (by simp [ha]), he]
  · intro ha e he
    unfold get_pending_routes_info
    rw [if_pos (by simp [ha]), he]

/-- Witness for C2 at concrete inputs: a timed-out progress read falls
back to the JSON task map, a successful one uses the SQLite counts, and a
timed-out worker read propagates. -/
theorem c2_fallback_witness :
    calculate_progress_from_tasks
      ⟨true, .error "timeout", .ok [], .ok [],
        [("t1", ⟨some "DONE", none, none, []⟩)], []⟩ =
      jsonProgress [("t1", ⟨some "DONE", none, none, []⟩)] ∧
    calculate_progress_from_tasks
      ⟨true, .ok ["done", "pending"], .ok [], .ok [], [], []⟩ =
      calculate_progress_from_sqlite ["done", "pending"] ∧
    get_worker_status_from_tasks
      ⟨true, .ok [], .error "timeout", .ok [], [], []⟩ = .error "timeout" :=
  ⟨(c2_fallback ⟨true, .error "timeout", .ok [], .ok [],
      [("t1", ⟨some "DONE", none, none, []⟩)], []⟩).1 rfl "timeout" rfl,
   (c2_fallback ⟨true, .ok ["done", "pending"], .ok [], .ok [], [], []⟩).2.1
     rfl ["done", "pending"] rfl,
   (c2_fallback ⟨true, .ok [], .error "timeout", .ok [], [], []⟩).2.2.2.1
     rfl "timeout" rfl⟩

/-! ### C8: pointer resolution never scans -/

/-- C8: whenever the pointer artifact is present, parses, and names a
directory that exists together with its "checkpoints" subdirectory, a
resolution call never runs the scanning fallback, and any call that gets
past the TTL cache gate resolves to the pointer directory directly. -/
theorem c8_pointer_no_scan (force : Bool) (now last : ℚ)
    (cachedOut cachedCp : String) (fs : PointerFs) (cands : List Candidate)
    (baseDirs : List String) (d : String)
    (hp : fs.pointer_content = some d)
    (hd : fs.dir_exists d = true)
    (hc : fs.dir_exists (d ++ "/checkpoints") = true) :
    (refresh_active_paths force now last cachedOut cachedCp fs cands
      baseDirs).scanned = false ∧
    ((force = true ∨ 2 ≤ now - last) →
      refresh_active_paths force now last cachedOut cachedCp fs cands
        baseDirs = ⟨now, d, d ++ "/checkpoints", false⟩) := by
  have hread : read_pointer_file fs = some d := by
    unfold read_pointer_file
    rw [hp]
    dsimp only
    rw [if_pos ⟨hd, hc⟩]
  unfold refresh_active_paths
  by_cases httl : ¬force ∧ now - last < 2
  · rw [if_pos httl]
    refine ⟨rfl, fun hforce => ?_⟩
    rcases httl with ⟨hnf, hlt2⟩
    rcases hforce with hf | hge
    · exact absurd hf hnf
    · linarith
  · rw [if_neg httl, hread]
    exact ⟨rfl, fun _ => rfl⟩

/-- Witness for C8 at a concrete filesystem in which the pointer names an
existing directory with a "checkpoints" subdirectory. -/
theorem c8_pointer_no_scan_witness :
    (refresh_active_paths true 100 0 "o" "c"
      ⟨some "run1", fun s => s == "run1" || s == "run1/checkpoints"⟩ []
      []).scanned = false ∧
    refresh_active_paths true 100 0 "o" "c"
      ⟨some "run1", fun s => s == "run1" || s == "run1/checkpoints"⟩ [] [] =
      ⟨100, "run1", "run1/checkpoints", false⟩ := by
  have h := c8_pointer_no_scan true 100 0 "o" "c"
    ⟨some "run1", fun s => s == "run1" || s == "run1/checkpoints"⟩ [] []
    "run1" rfl (by decide) (by decide)
  refine ⟨h.1, ?_⟩
  rw [h.2 (Or.inl rfl)]
  decide

/-! ### C9: composite-key candidate selection -/

theorem bestStep_fold_spec {α : Type} [LinearOrder α] (l : List α) :
    ∀ x : α, ∃ m, List.foldl bestStep (some x) l = some m ∧
      (m = x ∨ m ∈ l) ∧ x ≤ m ∧ ∀ y ∈ l, y ≤ m := by
  induction l with
  | nil =>
    intro x
    exact ⟨x, rfl, Or.inl rfl, le_refl x, by simp⟩
  | cons y ys ih =>
    intro x
    rw [List.foldl_cons]
    by_cases h : x < y
    · have hb : bestStep (some x) y = some y := by simp [bestStep, h]
      rw [hb]
      rcases ih y with ⟨m, hfold, hmem, hle, hall⟩
      refine ⟨m, hfold, ?_, le_trans (le_of_lt h) hle, ?_⟩
      · rcases hmem with rfl | hm
        · exact Or.inr (List.mem_cons_self _ _)
        · exact Or.inr (List.mem_cons_of_mem _ hm)
      · intro z hz
        rcases List.mem_cons.mp hz with rfl | hz2
        · exact hle
        · exact hall z hz2
    · have hb : bestStep (some x) y = some x := by simp [bestStep, h]
      rw [hb]
      rcases ih x with ⟨m, hfold, hmem, hle, hall⟩
      refine ⟨m, hfold, ?_, hle, ?_⟩
      · rcases hmem with rfl | hm
        · exact Or.inl rfl
        · exact Or.inr (List.mem_cons_of_mem _ hm)
      · intro z hz
        rcases List.mem_cons.mp hz with rfl | hz2
        · exact le_trans (not_lt.mp h) hle
        · exact hall z hz2

theorem ckey_lt_of_tie (a b : Candidate) (mta mtb : ℚ)
    (h1 : isActiveOf a = isActiveOf b) (h2 : a.activity_ts = b.activity_ts)
    (h3 : a.started_ts = b.started_ts) (h4 : mta = mtb)
    (h5 : a.path < b.path) : ckey a mta < ckey b mtb := by
  unfold ckey
  rw [Prod.Lex.lt_iff]
  right
  refine ⟨h1, ?_⟩
  dsimp only
  rw [Prod.Lex.lt_iff]
  right
  refine ⟨h2, ?_⟩
  dsimp only
  rw [Prod.Lex.lt_iff]
  right
  refine ⟨h3, ?_⟩
  dsimp only
  rw [Prod.Lex.lt_iff]
  right
  exact ⟨h4, h5⟩

/-- C9: whenever at least one candidate has a readable `stat()`, the scan
selects a candidate whose composite key
`(isActive, lastActivityTime, startedAt, mtime, path)` is maximal among
all readable candidates; and for two candidates identical in the first
four components the lexicographically greater path wins, in either
presentation order. -/
theorem c9_selection (files : List Candidate) :
    ((∃ c0 ∈ files, c0.mtime.isSome = true) →
      ∃ c ∈ files, ∃ mt : ℚ, c.mtime = some mt ∧
        select_active_run_state_file files = some c.path ∧
        ∀ c2 ∈ files, ∀ mt2 : ℚ, c2.mtime = some mt2 →
          ckey c2 mt2 ≤ ckey c mt) ∧
    (∀ a b : Candidate, ∀ mta mtb : ℚ,
      isActiveOf a = isActiveOf b → a.activity_ts = b.activity_ts →
      a.started_ts = b.started_ts → a.mtime = some mta →
      b.mtime = some mtb → mta = mtb → a.path < b.path →
      select_active_run_state_file [a, b] = some b.path ∧
      select_active_run_state_file [b, a] = some b.path) := by
  constructor
  · rintro ⟨c0, hc0, hm0⟩
    rcases Option.isSome_iff_exists.mp hm0 with ⟨mt0, hmt0⟩
    have hmem0 : ckey c0 mt0 ∈ files.filterMap candKey :=
      List.mem_filterMap.mpr ⟨c0, hc0, by rw [candKey, hmt0]; rfl⟩
    rcases hkeys : files.filterMap candKey with _ | ⟨k, ks⟩
    · rw [hkeys] at hmem0
      exact absurd hmem0 (List.not_mem_nil _)
    · rcases bestStep_fold_spec ks k with ⟨m, hfold, hmemm, hlek, hall⟩
      have hmmem : m ∈ files.filterMap candKey := by
        rw [hkeys]
        rcases hmemm with rfl | hm
        · exact List.mem_cons_self _ _
        · exact List.mem_cons_of_mem _ hm
      rcases List.mem_filterMap.mp hmmem with ⟨c, hcf, hck⟩
      rw [candKey] at hck
      rcases Option.map_eq_some'.mp hck with ⟨mt, hmt, hckey⟩
      refine ⟨c, hcf, mt, hmt, ?_, ?_⟩
      · unfold select_active_run_state_file
        rw [hkeys, List.foldl_cons]
        have hb0 : bestStep (none : Option ResolveKey) k = some k := rfl
        rw [hb0, hfold, ← hckey]
        rfl
      · intro c2 hc2 mt2 hmt2
        have h2 : ckey c2 mt2 ∈ files.filterMap candKey :=
          List.mem_filterMap.mpr ⟨c2, hc2, by rw [candKey, hmt2]; rfl⟩
        rw [hkeys] at h2
        rw [hckey]
        rcases List.mem_cons.mp h2 with heq | hin
        · rw [heq]
          exact hlek
        · exact hall _ hin
  · intro a b mta mtb h1 h2 h3 hma hmb h4 h5
    have hlt : ckey a mta < ckey b mtb := ckey_lt_of_tie a b mta mtb h1 h2 h3 h4 h5
    have hfm1 : [a, b].filterMap candKey = [ckey a mta, ckey b mtb] := by
      simp [candKey, hma, hmb]
    have hfm2 : [b, a].filterMap candKey = [ckey b mtb, ckey a mta] := by
      simp [candKey, hma, hmb]
    constructor
    · unfold select_active_run_state_file
      rw [hfm1, List.foldl_cons, List.foldl_cons, List.foldl_nil]
      have hb1 : bestStep (none : Option ResolveKey) (ckey a mta) =
        some (ckey a mta) := rfl
      have hb2 : bestStep (some (ckey a mta)) (ckey b mtb) =
        some (ckey b mtb) := by simp [bestStep, hlt]
      rw [hb1, hb2]
      rfl
    · unfold select_active_run_state_file
      rw [hfm2, List.foldl_cons, List.foldl_cons, List.foldl_nil]
      have hb1 : bestStep (none : Option ResolveKey) (ckey b mtb) =
        some (ckey b mtb) := rfl
      have hb2 : bestStep (some (ckey b mtb)) (ckey a mta) =
        some (ckey b mtb) := by simp [bestStep, not_lt_of_gt hlt]
      rw [hb1, hb2]
      rfl

/-- Witness for C9 at concrete candidates: two candidates differing only
in path resolve to the greater path "b" in both orders, and a singleton
candidate list selects its element. -/
theorem c9_selection_witness :
    select_active_run_state_file
      [⟨none, 0, 0, some 1, "a"⟩, ⟨none, 0, 0, some 1, "b"⟩] = some "b" ∧
    select_active_run_state_file
      [⟨none, 0, 0, some 1, "b"⟩, ⟨none, 0, 0, some 1, "a"⟩] = some "b" ∧
    (∃ c ∈ [(⟨none, 0, 0, some 1, "a"⟩ : Candidate)], ∃ mt : ℚ,
      c.mtime = some mt ∧
      select_active_run_state_file [⟨none, 0, 0, some 1, "a"⟩] = some c.path ∧
      ∀ c2 ∈ [(⟨none, 0, 0, some 1, "a"⟩ : Candidate)], ∀ mt2 : ℚ,
        c2.mtime = some mt2 → ckey c2 mt2 ≤ ckey c mt) := by
  have h := (c9_selection
    [⟨none, 0, 0, some 1, "a"⟩, ⟨none, 0, 0, some 1, "b"⟩]).2
    ⟨none, 0, 0, some 1, "a"⟩ ⟨none, 0, 0, some 1, "b"⟩ 1 1
    rfl rfl rfl rfl rfl rfl
    (by rw [String.lt_iff_toList_lt]; decide)
  refine ⟨h.1, h.2, ?_⟩
  exact (c9_selection [⟨none, 0, 0, some 1, "a"⟩]).1
    ⟨⟨none, 0, 0, some 1, "a"⟩, by simp, rfl⟩
